import Mathlib

/-!
# Instance lifecycle client of `linodego` (vendor/github.com/chiefy/linodego/instances.go)

A shallow embedding of the request-building and result-settling code of the
instance operations, together with the properties the specification states
about them.

Modelling conventions
* Go `int` is `Int`: identifiers are never computed with, they are only
  printed in decimal (`%d`, `json.Marshal`).
* Go `string` is `String`, so only valid UTF-8 is covered.
* A Go result pair `(v, error)` of an operation is a pair whose second
  component is `Option ε`, `none` being the `nil` error; a `*Instance` result
  is an `Option`, a `[]*Instance` is a list of pointers (the nil slice is the
  empty list), each pointer nil or an address into a store of records.
* A Go panic is an outcome of its own, next to returning.
* The collaborators whose code is not part of `instances.go` are parameters:
  `c.Instances.Endpoint()` and `coupleAPIErrors(c.R(ctx)...<Verb>(url))` are
  the two fields of `Client`, `parseDates` and `c.listHelper` are arguments of
  the functions that call them; where a property needs to say how the
  paginating helper reaches the endpoint, `listHelper` models it from the
  specification. `ε` is the type of Go errors, `τ` that of
  `time.Time`.
* Every operation returns, next to its Go results, the list of HTTP requests
  it issued.
* `json.Marshal` and `fmt.Sprintf` belong to the Go standard library; they are
  modelled for the value shapes `instances.go` hands them.
-/

namespace Linodego

/-! ## `encoding/json` for the value shapes used by `instances.go` -/

/-- Lower-case hexadecimal digit, the table `hex` of `encoding/json`. -/
def hexDigit (n : Nat) : Char :=
  if n < 10 then Char.ofNat (48 + n) else Char.ofNat (87 + n)

/-- Escaping of one character inside a JSON string literal, as done by
`encodeState.string` with HTML escaping on (the `json.Marshal` default):
the quote and the backslash get a backslash, newline, carriage return and tab
their short form, the other control characters below 0x20 and the characters
less-than, greater-than and ampersand the six-character unicode form, as do
U+2028 and U+2029; every other character is copied. (Go releases from 1.22 on
print backspace and form feed in short form as well; nothing below depends on
it.) -/
def escapeChar (c : Char) : List Char :=
  if c = '"' then ['\\', '"']
  else if c = '\\' then ['\\', '\\']
  else if c = '\n' then ['\\', 'n']
  else if c = '\r' then ['\\', 'r']
  else if c = '\t' then ['\\', 't']
  else if c.toNat < 32 ∨ c = '<' ∨ c = '>' ∨ c = '&' then
    ['\\', 'u', '0', '0', hexDigit (c.toNat / 16), hexDigit (c.toNat % 16)]
  else if c.toNat = 8232 then ['\\', 'u', '2', '0', '2', '8']
  else if c.toNat = 8233 then ['\\', 'u', '2', '0', '2', '9']
  else [c]

/-- JSON encoding of a Go string. -/
def encodeString (s : String) : String :=
  String.mk ('"' :: (s.data.flatMap escapeChar ++ ['"']))

/-- JSON encoding of a Go `int`: its decimal representation. -/
def encodeInt (n : Int) : String := toString n

/-- JSON encoding of a Go `bool`. -/
def encodeBool (b : Bool) : String := if b then "true" else "false"

/-- The members of a JSON object: key and already encoded value, in order. -/
abbrev Members := List (String × String)

/-- Comma-separated rendering of the members of an object. -/
def renderMembers : Members → String
  | [] => ""
  | [(k, v)] => encodeString k ++ ":" ++ v
  | (k, v) :: rest => encodeString k ++ ":" ++ v ++ "," ++ renderMembers rest

/-- JSON object with the given members. -/
def encodeObject (ms : Members) : String := "\x7b" ++ renderMembers ms ++ "\x7d"

/-- Comma-separated rendering of the elements of an array. -/
def renderElements : List String → String
  | [] => ""
  | [v] => v
  | v :: rest => v ++ "," ++ renderElements rest

/-- JSON encoding of a Go `[]string`: `null` for the nil slice. -/
def encodeStringSlice : Option (List String) → String
  | none => "null"
  | some xs => "[" ++ renderElements (xs.map encodeString) ++ "]"

/-- Insertion of an entry into a key-sorted association list. -/
def insertByKey {α : Type} (e : String × α) : List (String × α) → List (String × α)
  | [] => [e]
  | x :: xs => if e.1 < x.1 then e :: x :: xs else x :: insertByKey e xs

/-- Map entries in the order `encoding/json` emits them: sorted by key. -/
def sortByKey {α : Type} (m : List (String × α)) : List (String × α) :=
  m.foldr insertByKey []

/-- JSON encoding of a Go `map[string]string` (an association list with
distinct keys): `null` for the nil map, otherwise an object sorted by key. -/
def encodeStringMap : Option (List (String × String)) → String
  | none => "null"
  | some m => encodeObject ((sortByKey m).map (fun kv => (kv.1, encodeString kv.2)))

/-- JSON encoding of a Go `map[string]int` (never nil where it is used). -/
def encodeIntMap (m : List (String × Int)) : String :=
  encodeObject ((sortByKey m).map (fun kv => (kv.1, encodeInt kv.2)))

/-- A struct field of the encoder: key, encoded value, and whether the field
is left out (`omitempty` and the value is empty). -/
structure Field where
  key : String
  value : String
  omitted : Bool

/-- The members a struct contributes: its fields in declaration order, those
to be omitted left out. -/
def fieldMembers (fs : List Field) : Members :=
  (fs.filter (fun f => !f.omitted)).map (fun f => (f.key, f.value))

/-! ## Data model (`instances.go`, lines 17-117 and 347-355) -/

/-- Go `InstanceStatus`, a string. -/
abbrev InstanceStatus := String

/-- Go `InstanceSpec`. -/
structure InstanceSpec where
  Disk : Int
  Memory : Int
  VCPUs : Int
  Transfer : Int
deriving DecidableEq

/-- Go `InstanceAlert`. -/
structure InstanceAlert where
  CPU : Int
  Io : Int
  NetworkIn : Int
  NetworkOut : Int
  TransferQuote : Int
deriving DecidableEq

/-- The anonymous struct type of `InstanceBackup.Schedule`. -/
structure BackupSchedule where
  Day : String
  Window : String
deriving DecidableEq

/-- Go `InstanceBackup`. -/
structure InstanceBackup where
  Enabled : Bool
  Schedule : BackupSchedule
deriving DecidableEq

/-- Go `Instance`; `τ` is `time.Time`, a nil pointer is `none`, an element of
`IPv4` is the byte sequence of a `net.IP`. -/
structure Instance (τ : Type) where
  CreatedStr : String
  UpdatedStr : String
  ID : Int
  Created : Option τ
  Updated : Option τ
  Region : String
  Alerts : Option InstanceAlert
  Backups : Option InstanceBackup
  Image : String
  Group : String
  IPv4 : List (Option (List Nat))
  IPv6 : String
  Label : String
  Type_ : String
  Status : InstanceStatus
  Hypervisor : String
  Specs : Option InstanceSpec
deriving DecidableEq

/-- Go `InstanceCreateOptions`; a nil slice, map or pointer is `none`. -/
structure InstanceCreateOptions where
  Region : String
  Type_ : String
  Label : String
  Group : String
  RootPass : String
  AuthorizedKeys : Option (List String)
  StackScriptID : Int
  StackScriptData : Option (List (String × String))
  BackupID : Int
  Image : String
  BackupsEnabled : Bool
  SwapSize : Option Int
  Booted : Bool

/-- Go `InstanceUpdateOptions`. -/
structure InstanceUpdateOptions where
  Label : String
  Group : String
  Backups : InstanceBackup
  Alerts : InstanceAlert

/-- Go `InstanceCloneOptions`. -/
structure InstanceCloneOptions where
  Region : String
  Type_ : String
  LinodeID : Int
  Label : String
  Group : String
  BackupsEnabled : Bool
  Disks : Option (List String)
  Configs : Option (List String)

/-- Go `RebuildInstanceOptions`. -/
structure RebuildInstanceOptions where
  Image : String
  RootPass : String
  AuthorizedKeys : Option (List String)
  StackscriptID : Int
  StackscriptData : Option (List (String × String))
  Booted : Bool

/-- The zero value of `InstanceBackup`. -/
def InstanceBackup.zero : InstanceBackup := ⟨false, ⟨"", ""⟩⟩

/-- The zero value of `InstanceAlert`. -/
def InstanceAlert.zero : InstanceAlert := ⟨0, 0, 0, 0, 0⟩

/-- The zero value of `Instance`. -/
def Instance.zero (τ : Type) : Instance τ :=
  ⟨"", "", 0, none, none, "", none, none, "", "", [], "", "", "", "", "", none⟩

/-! ## `json.Marshal` of the option structs, following their field tags

`omitempty` leaves a field out when it is `false`, `0`, a nil pointer, or an
empty (or nil) slice, map or string; a struct value is never empty, so the tag
has no effect on the struct-typed fields `Backups` and `Alerts`. -/

/-- Members of the encoding of the `Schedule` struct (tags `day,omitempty`
and `window,omitempty`). -/
def BackupSchedule.members (s : BackupSchedule) : Members :=
  fieldMembers
    [⟨"day", encodeString s.Day, s.Day = ""⟩,
     ⟨"window", encodeString s.Window, s.Window = ""⟩]

/-- Members of the encoding of `InstanceBackup` (tag `enabled`; `Schedule`
has no tag and is keyed by its field name). -/
def InstanceBackup.members (b : InstanceBackup) : Members :=
  fieldMembers
    [⟨"enabled", encodeBool b.Enabled, false⟩,
     ⟨"Schedule", encodeObject b.Schedule.members, false⟩]

/-- Members of the encoding of `InstanceAlert`. -/
def InstanceAlert.members (a : InstanceAlert) : Members :=
  fieldMembers
    [⟨"cpu", encodeInt a.CPU, false⟩,
     ⟨"io", encodeInt a.Io, false⟩,
     ⟨"network_in", encodeInt a.NetworkIn, false⟩,
     ⟨"network_out", encodeInt a.NetworkOut, false⟩,
     ⟨"transfer_queue", encodeInt a.TransferQuote, false⟩]

/-- Members of the encoding of `InstanceCreateOptions`: `region` and `type`
carry no `omitempty`, every other field does. -/
def InstanceCreateOptions.members (o : InstanceCreateOptions) : Members :=
  fieldMembers
    [⟨"region", encodeString o.Region, false⟩,
     ⟨"type", encodeString o.Type_, false⟩,
     ⟨"label", encodeString o.Label, o.Label = ""⟩,
     ⟨"group", encodeString o.Group, o.Group = ""⟩,
     ⟨"root_pass", encodeString o.RootPass, o.RootPass = ""⟩,
     ⟨"authorized_keys", encodeStringSlice o.AuthorizedKeys,
       (o.AuthorizedKeys.getD []).isEmpty⟩,
     ⟨"stackscript_id", encodeInt o.StackScriptID, o.StackScriptID = 0⟩,
     ⟨"stackscript_data", encodeStringMap o.StackScriptData,
       (o.StackScriptData.getD []).isEmpty⟩,
     ⟨"backup_id", encodeInt o.BackupID, o.BackupID = 0⟩,
     ⟨"image", encodeString o.Image, o.Image = ""⟩,
     ⟨"backups_enabled", encodeBool o.BackupsEnabled, !o.BackupsEnabled⟩,
     ⟨"swap_size", (o.SwapSize.map encodeInt).getD "null", o.SwapSize.isNone⟩,
     ⟨"booted", encodeBool o.Booted, !o.Booted⟩]

/-- Members of the encoding of `InstanceUpdateOptions`: all four fields are
tagged `omitempty`, which only ever drops the two strings. -/
def InstanceUpdateOptions.members (o : InstanceUpdateOptions) : Members :=
  fieldMembers
    [⟨"label", encodeString o.Label, o.Label = ""⟩,
     ⟨"group", encodeString o.Group, o.Group = ""⟩,
     ⟨"backups", encodeObject o.Backups.members, false⟩,
     ⟨"alerts", encodeObject o.Alerts.members, false⟩]

/-- Members of the encoding of `InstanceCloneOptions` (no `omitempty`). -/
def InstanceCloneOptions.members (o : InstanceCloneOptions) : Members :=
  fieldMembers
    [⟨"region", encodeString o.Region, false⟩,
     ⟨"type", encodeString o.Type_, false⟩,
     ⟨"linode_id", encodeInt o.LinodeID, false⟩,
     ⟨"label", encodeString o.Label, false⟩,
     ⟨"group", encodeString o.Group, false⟩,
     ⟨"backups_enabled", encodeBool o.BackupsEnabled, false⟩,
     ⟨"disks", encodeStringSlice o.Disks, false⟩,
     ⟨"configs", encodeStringSlice o.Configs, false⟩]

/-- Members of the encoding of `RebuildInstanceOptions` (no `omitempty`). -/
def RebuildInstanceOptions.members (o : RebuildInstanceOptions) : Members :=
  fieldMembers
    [⟨"image", encodeString o.Image, false⟩,
     ⟨"root_pass", encodeString o.RootPass, false⟩,
     ⟨"authorized_keys", encodeStringSlice o.AuthorizedKeys, false⟩,
     ⟨"stackscript_id", encodeInt o.StackscriptID, false⟩,
     ⟨"stackscript_data", encodeStringMap o.StackscriptData, false⟩,
     ⟨"booted", encodeBool o.Booted, false⟩]

/-- Result of `json.Marshal` on a pointer to a struct whose members are given
by `members`: `null` for the nil pointer. For none of the types above can
`json.Marshal` return an error (they hold only strings, integers, booleans,
string slices and string maps), so the `NewError(err)` branches of the
operations are unreachable and the encoder is total. -/
def marshalPtr {α : Type} (members : α → Members) : Option α → String
  | none => "null"
  | some o => encodeObject (members o)

/-! ## HTTP exchange -/

/-- HTTP verb of a request. -/
inductive Method where
  | GET
  | POST
  | PUT
  | DELETE
deriving DecidableEq

/-- What an operation hands to the transport: verb, URL, the argument of
`SetBody` (`none` when `SetBody` is not called) and whether `SetResult` was
called with an `Instance`. -/
structure Request where
  method : Method
  url : String
  body : Option String
  setResult : Bool
deriving DecidableEq

/-- What a successful coupled exchange hands back: the `*resty.Response`,
reduced to its status code, its raw body and the `Instance` that `Result()`
points to (the decoded body when `SetResult` was called). -/
structure Response (τ : Type) where
  statusCode : Int
  body : String
  result : Instance τ

/-- The client as seen by `instances.go`. `endpoint` is the outcome of
`c.Instances.Endpoint()`; `exchange req` is the outcome of
`coupleAPIErrors(c.R(ctx)...<Verb>(url))` for the request `req`: the response,
or the error the coupler produced. Both collaborators live outside
`instances.go` and are parameters. -/
structure Client (τ ε : Type) where
  endpoint : Except ε String
  exchange : Request → Except ε (Response τ)

/-- Outcome of running an operation: the requests it issued, in order, and
the values it returned. -/
structure Call (α : Type) where
  sent : List Request
  ret : α

/-- The Go pair `(r, err)` of a coupled exchange. -/
def goPair {τ ε : Type} : Except ε (Response τ) → Option (Response τ) × Option ε
  | .ok r => (some r, none)
  | .error err => (none, some err)

/-- Go `fmt.Sprintf("%s/%d", e, id)`. -/
def sprintfId (e : String) (id : Int) : String := e ++ "/" ++ toString id

/-- Go `fmt.Sprintf("%s/%d/<action>", e, id)`. -/
def sprintfAction (e : String) (id : Int) (action : String) : String :=
  e ++ "/" ++ toString id ++ "/" ++ action

/-! ## Operations (`instances.go`, lines 119-412) -/

section Operations

variable {τ ε : Type}

/-- Go `(*Instance).fixDates` (line 119); `parseDates` is the package
function `parseDates(string) (*time.Time, error)`, whose error is dropped. -/
def Instance.fixDates (parseDates : String → Option τ × Option ε) (l : Instance τ) :
    Instance τ :=
  let l := { l with Created := (parseDates l.CreatedStr).1 }
  let l := { l with Updated := (parseDates l.UpdatedStr).1 }
  l

/-- Go `settleBoolResponseOrError` (line 407). -/
def settleBoolResponseOrError (_resp : Option (Response τ)) (err : Option ε) :
    Bool × Option ε :=
  match err with
  | some e => (false, some e)
  | none => (true, none)

/-- Go `GetInstance` (line 164). -/
def GetInstance (parseDates : String → Option τ × Option ε) (c : Client τ ε)
    (linodeID : Int) : Call (Option (Instance τ) × Option ε) :=
  match c.endpoint with
  | .error err => ⟨[], (none, some err)⟩
  | .ok e =>
    let e := sprintfId e linodeID
    let req : Request := ⟨.GET, e, none, true⟩
    match c.exchange req with
    | .error err => ⟨[req], (none, some err)⟩
    | .ok r => ⟨[req], (some (r.result.fixDates parseDates), none)⟩

/-- Go `CreateInstance` (line 180). -/
def CreateInstance (parseDates : String → Option τ × Option ε) (c : Client τ ε)
    (inst : Option InstanceCreateOptions) : Call (Option (Instance τ) × Option ε) :=
  match c.endpoint with
  | .error err => ⟨[], (none, some err)⟩
  | .ok e =>
    let body := marshalPtr InstanceCreateOptions.members inst
    let req : Request := ⟨.POST, e, some body, true⟩
    match c.exchange req with
    | .error err => ⟨[req], (none, some err)⟩
    | .ok r => ⟨[req], (some (r.result.fixDates parseDates), none)⟩

/-- Go `UpdateInstance` (line 206); its source comment speaks of creating an
instance, the code updates the instance `id` with a PUT. -/
def UpdateInstance (parseDates : String → Option τ × Option ε) (c : Client τ ε)
    (id : Int) (inst : Option InstanceUpdateOptions) :
    Call (Option (Instance τ) × Option ε) :=
  match c.endpoint with
  | .error err => ⟨[], (none, some err)⟩
  | .ok e =>
    let e := sprintfId e id
    let body := marshalPtr InstanceUpdateOptions.members inst
    let req : Request := ⟨.PUT, e, some body, true⟩
    match c.exchange req with
    | .error err => ⟨[req], (none, some err)⟩
    | .ok r => ⟨[req], (some (r.result.fixDates parseDates), none)⟩

/-- Go `RenameInstance` (line 233): `InstanceUpdateOptions{Label: label}`,
every other field at its zero value. -/
def RenameInstance (parseDates : String → Option τ × Option ε) (c : Client τ ε)
    (linodeID : Int) (label : String) : Call (Option (Instance τ) × Option ε) :=
  UpdateInstance parseDates c linodeID
    (some ⟨label, "", InstanceBackup.zero, InstanceAlert.zero⟩)

/-- Go `DeleteInstance` (line 238). -/
def DeleteInstance (c : Client τ ε) (id : Int) : Call (Option ε) :=
  match c.endpoint with
  | .error err => ⟨[], some err⟩
  | .ok e =>
    let e := sprintfId e id
    let req : Request := ⟨.DELETE, e, none, false⟩
    match c.exchange req with
    | .error err => ⟨[req], some err⟩
    | .ok _ => ⟨[req], none⟩

/-- Body built by `BootInstance` (lines 255-264). -/
def bootBody (configID : Int) : String :=
  if configID ≠ 0 then encodeIntMap [("config_id", configID)] else ""

/-- Go `BootInstance` (line 254). -/
def BootInstance (c : Client τ ε) (id : Int) (configID : Int) : Call (Bool × Option ε) :=
  let bodyStr := bootBody configID
  match c.endpoint with
  | .error err => ⟨[], (false, some err)⟩
  | .ok e =>
    let e := sprintfAction e id "boot"
    let req : Request := ⟨.POST, e, some bodyStr, false⟩
    let rerr := goPair (c.exchange req)
    ⟨[req], settleBoolResponseOrError rerr.1 rerr.2⟩

/-- Go `CloneInstance` (line 280). -/
def CloneInstance (parseDates : String → Option τ × Option ε) (c : Client τ ε)
    (id : Int) (options : Option InstanceCloneOptions) :
    Call (Option (Instance τ) × Option ε) :=
  match c.endpoint with
  | .error err => ⟨[], (none, some err)⟩
  | .ok e =>
    let e := sprintfAction e id "clone"
    let body := marshalPtr InstanceCloneOptions.members options
    let req : Request := ⟨.POST, e, some body, true⟩
    match c.exchange req with
    | .error err => ⟨[req], (none, some err)⟩
    | .ok r => ⟨[req], (some (r.result.fixDates parseDates), none)⟩

/-- Body built by `RebootInstance` (lines 310-319). -/
def rebootBody (configID : Int) : String :=
  if configID ≠ 0 then encodeIntMap [("config_id", configID)] else "\x7b\x7d"

/-- Go `RebootInstance` (line 309). -/
def RebootInstance (c : Client τ ε) (id : Int) (configID : Int) : Call (Bool × Option ε) :=
  let bodyStr := rebootBody configID
  match c.endpoint with
  | .error err => ⟨[], (false, some err)⟩
  | .ok e =>
    let e := sprintfAction e id "reboot"
    let req : Request := ⟨.POST, e, some bodyStr, false⟩
    let rerr := goPair (c.exchange req)
    ⟨[req], settleBoolResponseOrError rerr.1 rerr.2⟩

/-- Go `MutateInstance` (line 336). -/
def MutateInstance (c : Client τ ε) (id : Int) : Call (Bool × Option ε) :=
  match c.endpoint with
  | .error err => ⟨[], (false, some err)⟩
  | .ok e =>
    let e := sprintfAction e id "mutate"
    let req : Request := ⟨.POST, e, none, false⟩
    let rerr := goPair (c.exchange req)
    ⟨[req], settleBoolResponseOrError rerr.1 rerr.2⟩

/-- Go `RebuildInstance` (line 359). -/
def RebuildInstance (parseDates : String → Option τ × Option ε) (c : Client τ ε)
    (id : Int) (opts : Option RebuildInstanceOptions) :
    Call (Option (Instance τ) × Option ε) :=
  let b := marshalPtr RebuildInstanceOptions.members opts
  match c.endpoint with
  | .error err => ⟨[], (none, some err)⟩
  | .ok e =>
    let e := sprintfAction e id "rebuild"
    let req : Request := ⟨.POST, e, some b, true⟩
    match c.exchange req with
    | .error err => ⟨[req], (none, some err)⟩
    | .ok r => ⟨[req], (some (r.result.fixDates parseDates), none)⟩

/-- Body built by `ResizeInstance` (line 382): the type is spliced between
two fixed pieces by `fmt.Sprintf`, with no escaping. -/
def resizeBody (linodeType : String) : String :=
  "\x7b\"type\":\"" ++ linodeType ++ "\"\x7d"

/-- Go `ResizeInstance` (line 381). -/
def ResizeInstance (c : Client τ ε) (id : Int) (linodeType : String) :
    Call (Bool × Option ε) :=
  let body := resizeBody linodeType
  match c.endpoint with
  | .error err => ⟨[], (false, some err)⟩
  | .ok e =>
    let e := sprintfAction e id "resize"
    let req : Request := ⟨.POST, e, some body, false⟩
    let rerr := goPair (c.exchange req)
    ⟨[req], settleBoolResponseOrError rerr.1 rerr.2⟩

/-- Go `ShutdownInstance` (line 398). -/
def ShutdownInstance (c : Client τ ε) (id : Int) : Call (Bool × Option ε) :=
  match c.endpoint with
  | .error err => ⟨[], (false, some err)⟩
  | .ok e =>
    let e := sprintfAction e id "shutdown"
    let req : Request := ⟨.POST, e, none, false⟩
    let rerr := goPair (c.exchange req)
    ⟨[req], settleBoolResponseOrError rerr.1 rerr.2⟩

/-! ### Listing (`instances.go`, lines 125-161) -/

/-- What a Go panic carries: the error handed to `panic`, or the run-time
error of dereferencing a nil pointer. -/
inductive PanicValue (ε : Type) where
  | error (e : ε)
  | nilDereference

/-- Outcome of a Go call that may panic instead of returning. -/
inductive Outcome (ε α : Type) where
  | returned (a : α)
  | panicked (p : PanicValue ε)

/-- A `*Instance`: `none` is the nil pointer, `some a` the address `a` in the
store of instance records. -/
abbrev Ptr := Option Nat

/-- The store the non-nil `*Instance` pointers of a page response point
into. -/
abbrev Heap (τ : Type) := Nat → Instance τ

/-- Go `PageOptions`. -/
structure PageOptions where
  Page : Int
  Pages : Int
  Results : Int

/-- Go `InstancesPagedResponse`: the embedded `*PageOptions` and the
accumulated `[]*Instance`, whose elements may be nil. -/
structure InstancesPagedResponse where
  PageOptions : Option PageOptions
  Data : List Ptr

/-- Go `InstancesPagedResponse.endpoint` (line 132): `panic(err)` when the
endpoint cannot be resolved. -/
def InstancesPagedResponse.endpoint (c : Client τ ε) : Outcome ε String :=
  match c.endpoint with
  | .error err => .panicked (.error err)
  | .ok endpoint => .returned endpoint

/-- Go `(*InstancesPagedResponse).appendData` (line 141). -/
def InstancesPagedResponse.appendData (resp r : InstancesPagedResponse) :
    InstancesPagedResponse :=
  { resp with Data := resp.Data ++ r.Data }

/-- The loop `for _, el := range response.Data { el.fixDates() }` (lines
154-156) on the store: `fixDates` reads `l.CreatedStr` through its receiver,
so a nil element makes the loop panic; a non-nil element has its record
replaced by the date-fixed one. -/
def fixDatesAll (parseDates : String → Option τ × Option ε) :
    List Ptr → Heap τ → Outcome ε (Heap τ)
  | [], h => .returned h
  | none :: _, _ => .panicked .nilDereference
  | some a :: rest, h =>
    fixDatesAll parseDates rest (Function.update h a ((h a).fixDates parseDates))

/-- Go `ListInstances` (line 151). `helper` is `c.listHelper(ctx, ·, opts)`,
defined outside `instances.go`: from the store and the (empty) page response
it is handed, it either panics or returns the store, the filled page response
and its error. The dates are fixed before the error is looked at. -/
def ListInstances (parseDates : String → Option τ × Option ε)
    (helper : Heap τ → InstancesPagedResponse →
      Outcome ε (Heap τ × InstancesPagedResponse × Option ε))
    (h : Heap τ) : Outcome ε (Heap τ × List Ptr × Option ε) :=
  let response : InstancesPagedResponse := ⟨none, []⟩
  match helper h response with
  | .panicked p => .panicked p
  | .returned (h, response, err) =>
    match fixDatesAll parseDates response.Data h with
    | .panicked p => .panicked p
    | .returned h =>
      match err with
      | some err => .returned (h, [], some err)
      | none => .returned (h, response.Data, none)

/-- Modelled from the spec: `c.listHelper`, the Generic Paginator of section
4.4, whose code is not part of `instances.go`. The page shape "reports the
collection endpoint for its item type" and the paginator "repeatedly issues a
GET against the endpoint": it first asks the page shape for its endpoint and
then runs the page loop against that URL. The page loop itself (fetching,
decoding, appending, stopping) is the parameter `fetchPages`. -/
def listHelper (c : Client τ ε)
    (fetchPages : String → Heap τ → InstancesPagedResponse →
      Outcome ε (Heap τ × InstancesPagedResponse × Option ε))
    (h : Heap τ) (resp : InstancesPagedResponse) :
    Outcome ε (Heap τ × InstancesPagedResponse × Option ε) :=
  match InstancesPagedResponse.endpoint c with
  | .panicked p => .panicked p
  | .returned url => fetchPages url h resp

end Operations

/-! ## Summaries of how an operation settles its result

The three shapes below are what the tails of the operations compute from the
outcome of the coupled exchange; they are used to state the unfolding lemmas
of the operations. -/

section Settle

variable {τ ε : Type}

/-- Result of an operation that returns the instance of the response. -/
def settleInstance (parseDates : String → Option τ × Option ε) :
    Except ε (Response τ) → Option (Instance τ) × Option ε
  | .error err => (none, some err)
  | .ok r => (some (r.result.fixDates parseDates), none)

/-- Result of an operation that returns a boolean. -/
def settleBool (x : Except ε (Response τ)) : Bool × Option ε :=
  settleBoolResponseOrError (goPair x).1 (goPair x).2

/-- Result of an operation that returns only an error. -/
def settleError : Except ε (Response τ) → Option ε
  | .error err => some err
  | .ok _ => none

end Settle

/-! ## Predicates used to state the properties -/

section Predicates

variable {τ ε : Type}

/-- The call issued exactly one request and, in case the coupled exchange of
that request failed with `e`, returned `result`. -/
def ReturnsOnExchangeError {α : Type} (c : Client τ ε) (e : ε) (call : Call α)
    (result : α) : Prop :=
  ∃ r, call.sent = [r] ∧ (c.exchange r = .error e → call.ret = result)

/-- The call returned `(true, nil)` or `(false, e)`, and, in case the endpoint
resolved, it issued exactly one request, returned `(true, nil)` exactly when
the coupled exchange of that request produced no error, and returned
`(false, e)` when it produced the error `e`. -/
def SettlesBool (c : Client τ ε) (call : Call (Bool × Option ε)) : Prop :=
  (call.ret = (true, none) ∨ ∃ e, call.ret = (false, some e))
  ∧ ∀ E, c.endpoint = .ok E →
      ∃ r, call.sent = [r]
        ∧ (call.ret = (true, none) ↔ ∃ resp, c.exchange r = .ok resp)
        ∧ ∀ e, c.exchange r = .error e → call.ret = (false, some e)

end Predicates

/-! ## Reading back a one-member object (reference decoder)

The specification speaks of the request body of a resize as a JSON object
with the single member `type`. The definitions below follow those words: they
read an object of exactly that shape back (RFC 8259 string literals, no
insignificant white space, which a body of the form built by `resizeBody`
cannot have outside its string). -/

/-- Value of a hexadecimal digit. -/
def hexVal (c : Char) : Option Nat :=
  if 48 ≤ c.toNat ∧ c.toNat ≤ 57 then some (c.toNat - 48)
  else if 97 ≤ c.toNat ∧ c.toNat ≤ 102 then some (c.toNat - 87)
  else if 65 ≤ c.toNat ∧ c.toNat ≤ 70 then some (c.toNat - 55)
  else none

/-- Value of four hexadecimal digits. -/
def hex4 (a b c d : Char) : Option Nat :=
  match hexVal a, hexVal b, hexVal c, hexVal d with
  | some x, some y, some z, some w => some (((x * 16 + y) * 16 + z) * 16 + w)
  | _, _, _, _ => none

/-- The character a two-character escape stands for. -/
def simpleEscape (c : Char) : Option Nat :=
  if c = '"' then some 34
  else if c = '\\' then some 92
  else if c = '/' then some 47
  else if c = 'b' then some 8
  else if c = 'f' then some 12
  else if c = 'n' then some 10
  else if c = 'r' then some 13
  else if c = 't' then some 9
  else none

/-- Reads the rest of a string literal, the opening quote already consumed:
the code units it denotes and what follows its closing quote. Fails on an
unterminated literal, an unknown escape or a raw control character. -/
def unescape : List Char → Option (List Nat × List Char)
  | [] => none
  | c :: rest =>
    if c = '"' then some ([], rest)
    else if c = '\\' then
      match rest with
      | [] => none
      | e :: rest1 =>
        if e = 'u' then
          match rest1 with
          | a :: b :: c1 :: d :: rest2 =>
            match hex4 a b c1 d, unescape rest2 with
            | some v, some (us, r) => some (v :: us, r)
            | _, _ => none
          | _ => none
        else
          match simpleEscape e, unescape rest1 with
          | some v, some (us, r) => some (v :: us, r)
          | _, _ => none
    else if c.toNat < 32 then none
    else
      match unescape rest with
      | some (us, r) => some (c.toNat :: us, r)
      | none => none

/-- Whether a code unit is a UTF-16 surrogate half. -/
def isSurrogate (u : Nat) : Bool := 55296 ≤ u && u < 57344

/-- Code units to characters: a high and a low surrogate half in a row make
one character, a lone half becomes U+FFFD. -/
def combineUnits : List Nat → List Char
  | [] => []
  | [u] => [if isSurrogate u then Char.ofNat 65533 else Char.ofNat u]
  | hi :: lo :: rest =>
    if 55296 ≤ hi ∧ hi < 56320 ∧ 56320 ≤ lo ∧ lo < 57344 then
      Char.ofNat (65536 + (hi - 55296) * 1024 + (lo - 56320)) :: combineUnits rest
    else
      (if isSurrogate hi then Char.ofNat 65533 else Char.ofNat hi) :: combineUnits (lo :: rest)

/-- A character that needs no escaping inside a JSON string literal: not the
quote, not the backslash, not a control character. -/
def plainChar (c : Char) : Bool := c ≠ '"' && c ≠ '\\' && 32 ≤ c.toNat

/-- Removes a given prefix from a list of characters. -/
def dropPrefix : List Char → List Char → Option (List Char)
  | [], s => some s
  | _ :: _, [] => none
  | p :: ps, c :: cs => if p = c then dropPrefix ps cs else none

/-- The string value of the member `type` of a text that is a JSON object
with exactly that one member; `none` for any other text. -/
def decodeTypeObject (body : String) : Option String :=
  match dropPrefix "\x7b\"type\":\"".data body.data with
  | none => none
  | some rest =>
    match unescape rest with
    | some (us, ['}']) => some (String.mk (combineUnits us))
    | _ => none

/-! ## Concrete clients used to exercise the operations -/

/-- The collection URL of the instances resource. -/
def instancesURL : String := "https://api.linode.com/v4/linode/instances"

/-- A time parser: the empty string does not parse, any other string parses to
its length. -/
def demoParseDates (s : String) : Option Nat × Option String :=
  if s = "" then (none, some "cannot parse") else (some s.length, none)

/-- A client whose endpoint resolves and whose every exchange succeeds with an
empty body and a zero `Instance`. -/
def okClient : Client Nat String :=
  ⟨.ok instancesURL, fun _ => .ok ⟨200, "", Instance.zero Nat⟩⟩

/-- A client like `okClient` whose responses carry another status code, a
non-empty body and a labelled instance. -/
def verboseClient : Client Nat String :=
  ⟨.ok instancesURL,
    fun _ => .ok ⟨202, "\x7b\x7d", { Instance.zero Nat with Label := "web-1" }⟩⟩

/-- A client whose endpoint resolves and whose every exchange fails with a
404. -/
def notFoundClient : Client Nat String :=
  ⟨.ok instancesURL, fun _ => .error "[404] Not found"⟩

/-- A client whose endpoint does not resolve. -/
def noEndpointClient : Client Nat String :=
  ⟨.error "endpoint not set", fun _ => .ok ⟨200, "", Instance.zero Nat⟩⟩

/-- Create options with every field at its zero value: empty region and
type. -/
def emptyCreateOptions : InstanceCreateOptions :=
  ⟨"", "", "", "", "", none, 0, none, 0, "", false, none, false⟩

/-- A store holding a zero `Instance` at every address but 7, where the
record carries raw timestamps. -/
def demoHeap : Heap Nat := fun p =>
  if p = 7 then { Instance.zero Nat with CreatedStr := "2018-01-01T00:00:00", ID := 7 }
  else Instance.zero Nat

/-- A paginating helper that accumulated two items and then failed. -/
def failingHelper (h : Heap Nat) (resp : InstancesPagedResponse) :
    Outcome String (Heap Nat × InstancesPagedResponse × Option String) :=
  .returned (h, resp.appendData ⟨none, [some 7, some 8]⟩, some "[500] page 2 failed")

/-- A paginating helper that accumulated two items and succeeded. -/
def succeedingHelper (h : Heap Nat) (resp : InstancesPagedResponse) :
    Outcome String (Heap Nat × InstancesPagedResponse × Option String) :=
  .returned (h, resp.appendData ⟨none, [some 7, some 8]⟩, none)

/-- A paginating helper that accumulated an item and a nil pointer (a `null`
in the `data` array of a page) and then failed. -/
def nilItemHelper (h : Heap Nat) (resp : InstancesPagedResponse) :
    Outcome String (Heap Nat × InstancesPagedResponse × Option String) :=
  .returned (h, resp.appendData ⟨none, [some 7, none]⟩, some "[500] page 2 failed")

/-- A page loop that fetched one page holding one item. -/
def onePage (_url : String) (h : Heap Nat) (resp : InstancesPagedResponse) :
    Outcome String (Heap Nat × InstancesPagedResponse × Option String) :=
  .returned (h, resp.appendData ⟨none, [some 7]⟩, none)

/-! ## Properties -/

section Properties

variable {τ ε : Type}

/-! ### Unfolding of the operations -/

theorem GetInstance_ok (parseDates : String → Option τ × Option ε) (c : Client τ ε)
    (E : String) (hE : c.endpoint = .ok E) (id : Int) :
    GetInstance parseDates c id
      = ⟨[⟨.GET, sprintfId E id, none, true⟩],
          settleInstance parseDates (c.exchange ⟨.GET, sprintfId E id, none, true⟩)⟩ := by
  simp only [GetInstance, hE]
  split <;> simp_all [settleInstance]

theorem CreateInstance_ok (parseDates : String → Option τ × Option ε) (c : Client τ ε)
    (E : String) (hE : c.endpoint = .ok E) (inst : Option InstanceCreateOptions) :
    CreateInstance parseDates c inst
      = ⟨[⟨.POST, E, some (marshalPtr InstanceCreateOptions.members inst), true⟩],
          settleInstance parseDates (c.exchange
            ⟨.POST, E, some (marshalPtr InstanceCreateOptions.members inst), true⟩)⟩ := by
  simp only [CreateInstance, hE]
  split <;> simp_all [settleInstance]

theorem UpdateInstance_ok (parseDates : String → Option τ × Option ε) (c : Client τ ε)
    (E : String) (hE : c.endpoint = .ok E) (id : Int) (inst : Option InstanceUpdateOptions) :
    UpdateInstance parseDates c id inst
      = ⟨[⟨.PUT, sprintfId E id, some (marshalPtr InstanceUpdateOptions.members inst), true⟩],
          settleInstance parseDates (c.exchange
            ⟨.PUT, sprintfId E id, some (marshalPtr InstanceUpdateOptions.members inst),
              true⟩)⟩ := by
  simp only [UpdateInstance, hE]
  split <;> simp_all [settleInstance]

theorem DeleteInstance_ok (c : Client τ ε) (E : String) (hE : c.endpoint = .ok E) (id : Int) :
    DeleteInstance c id
      = ⟨[⟨.DELETE, sprintfId E id, none, false⟩],
          settleError (c.exchange ⟨.DELETE, sprintfId E id, none, false⟩)⟩ := by
  simp only [DeleteInstance, hE]
  split <;> simp_all [settleError]

theorem CloneInstance_ok (parseDates : String → Option τ × Option ε) (c : Client τ ε)
    (E : String) (hE : c.endpoint = .ok E) (id : Int) (options : Option InstanceCloneOptions) :
    CloneInstance parseDates c id options
      = ⟨[⟨.POST, sprintfAction E id "clone",
            some (marshalPtr InstanceCloneOptions.members options), true⟩],
          settleInstance parseDates (c.exchange
            ⟨.POST, sprintfAction E id "clone",
              some (marshalPtr InstanceCloneOptions.members options), true⟩)⟩ := by
  simp only [CloneInstance, hE]
  split <;> simp_all [settleInstance]

theorem RebuildInstance_ok (parseDates : String → Option τ × Option ε) (c : Client τ ε)
    (E : String) (hE : c.endpoint = .ok E) (id : Int) (opts : Option RebuildInstanceOptions) :
    RebuildInstance parseDates c id opts
      = ⟨[⟨.POST, sprintfAction E id "rebuild",
            some (marshalPtr RebuildInstanceOptions.members opts), true⟩],
          settleInstance parseDates (c.exchange
            ⟨.POST, sprintfAction E id "rebuild",
              some (marshalPtr RebuildInstanceOptions.members opts), true⟩)⟩ := by
  simp only [RebuildInstance, hE]
  split <;> simp_all [settleInstance]

theorem BootInstance_ok (c : Client τ ε) (E : String) (hE : c.endpoint = .ok E)
    (id configID : Int) :
    BootInstance c id configID
      = ⟨[⟨.POST, sprintfAction E id "boot", some (bootBody configID), false⟩],
          settleBool (c.exchange
            ⟨.POST, sprintfAction E id "boot", some (bootBody configID), false⟩)⟩ := by
  simp only [BootInstance, hE, settleBool]

theorem RebootInstance_ok (c : Client τ ε) (E : String) (hE : c.endpoint = .ok E)
    (id configID : Int) :
    RebootInstance c id configID
      = ⟨[⟨.POST, sprintfAction E id "reboot", some (rebootBody configID), false⟩],
          settleBool (c.exchange
            ⟨.POST, sprintfAction E id "reboot", some (rebootBody configID), false⟩)⟩ := by
  simp only [RebootInstance, hE, settleBool]

theorem MutateInstance_ok (c : Client τ ε) (E : String) (hE : c.endpoint = .ok E) (id : Int) :
    MutateInstance c id
      = ⟨[⟨.POST, sprintfAction E id "mutate", none, false⟩],
          settleBool (c.exchange ⟨.POST, sprintfAction E id "mutate", none, false⟩)⟩ := by
  simp only [MutateInstance, hE, settleBool]

theorem ResizeInstance_ok (c : Client τ ε) (E : String) (hE : c.endpoint = .ok E) (id : Int)
    (linodeType : String) :
    ResizeInstance c id linodeType
      = ⟨[⟨.POST, sprintfAction E id "resize", some (resizeBody linodeType), false⟩],
          settleBool (c.exchange
            ⟨.POST, sprintfAction E id "resize", some (resizeBody linodeType), false⟩)⟩ := by
  simp only [ResizeInstance, hE, settleBool]

theorem ShutdownInstance_ok (c : Client τ ε) (E : String) (hE : c.endpoint = .ok E)
    (id : Int) :
    ShutdownInstance c id
      = ⟨[⟨.POST, sprintfAction E id "shutdown", none, false⟩],
          settleBool (c.exchange ⟨.POST, sprintfAction E id "shutdown", none, false⟩)⟩ := by
  simp only [ShutdownInstance, hE, settleBool]

theorem settleInstance_error (parseDates : String → Option τ × Option ε)
    (x : Except ε (Response τ)) (e : ε) (hx : x = .error e) :
    settleInstance parseDates x = (none, some e) := by
  subst hx; rfl

theorem settleBool_error (x : Except ε (Response τ)) (e : ε) (hx : x = .error e) :
    settleBool x = (false, some e) := by
  subst hx; rfl

theorem settleError_error (x : Except ε (Response τ)) (e : ε) (hx : x = .error e) :
    settleError x = some e := by
  subst hx; rfl

/-! ### Request bodies of boot and reboot -/

theorem configBody_eq (n : Int) :
    encodeIntMap [("config_id", n)] = "\x7b\"config_id\":" ++ toString n ++ "\x7d" := rfl

theorem configBody_length (n : Int) :
    14 ≤ ("\x7b\"config_id\":" ++ toString n ++ "\x7d").length := by
  rw [String.length_append, String.length_append]
  have h1 : ("\x7b\"config_id\":").length = 13 := by decide
  have h2 : ("\x7d").length = 1 := by decide
  omega

theorem bootBody_eq (n : Int) :
    bootBody n = if n = 0 then "" else "\x7b\"config_id\":" ++ toString n ++ "\x7d" := by
  unfold bootBody
  by_cases h : n = 0
  · simp [h]
  · simp [h, configBody_eq]

theorem rebootBody_eq (n : Int) :
    rebootBody n
      = if n = 0 then "\x7b\x7d" else "\x7b\"config_id\":" ++ toString n ++ "\x7d" := by
  unfold rebootBody
  by_cases h : n = 0
  · simp [h]
  · simp [h, configBody_eq]

theorem sprintfAction_eq (e : String) (id : Int) (action : String) :
    sprintfAction e id action = e ++ "/" ++ toString id ++ ("/" ++ action) := by
  simp [sprintfAction, String.append_assoc]

/-- C1: once the endpoint resolves, `BootInstance` sends the empty string as
body when `configID` is 0 and the object with the single member `config_id`
otherwise, `RebootInstance` sends the empty object when `configID` is 0 and the
same single-member object otherwise; the bodies of boot with 0, reboot with 0
and a non-zero `configID` are pairwise distinct, and boot and reboot send the
same body for a non-zero `configID`. -/
theorem boot_reboot_request_bodies (c : Client τ ε) (u : String) (hu : c.endpoint = .ok u)
    (id configID : Int) :
    (BootInstance c id configID).sent.map Request.body
        = [some (if configID = 0 then ""
                 else "\x7b\"config_id\":" ++ toString configID ++ "\x7d")]
    ∧ (RebootInstance c id configID).sent.map Request.body
        = [some (if configID = 0 then "\x7b\x7d"
                 else "\x7b\"config_id\":" ++ toString configID ++ "\x7d")]
    ∧ (BootInstance c id 0).sent.map Request.body
        ≠ (RebootInstance c id 0).sent.map Request.body
    ∧ (configID ≠ 0 →
        (BootInstance c id 0).sent.map Request.body
          ≠ (BootInstance c id configID).sent.map Request.body
        ∧ (RebootInstance c id 0).sent.map Request.body
          ≠ (RebootInstance c id configID).sent.map Request.body
        ∧ (BootInstance c id configID).sent.map Request.body
          = (RebootInstance c id configID).sent.map Request.body) := by
  have hlen := configBody_length configID
  simp only [BootInstance_ok c u hu, RebootInstance_ok c u hu, List.map_cons, List.map_nil,
    bootBody_eq, rebootBody_eq]
  refine ⟨trivial, trivial, by decide, fun hn => ?_⟩
  simp only [if_neg hn, if_true, ne_eq, List.cons.injEq, Option.some.injEq, and_true]
  refine ⟨fun h => ?_, fun h => ?_⟩
  · rw [← h] at hlen
    exact absurd hlen (by decide)
  · rw [← h] at hlen
    exact absurd hlen (by decide)

/-- Witness of C1 on a client whose endpoint resolves, instance 42 and
configuration 5. -/
theorem boot_reboot_request_bodies_witness :
    okClient.endpoint = .ok instancesURL
    ∧ (BootInstance okClient 42 5).sent.map Request.body = [some "\x7b\"config_id\":5\x7d"]
    ∧ (RebootInstance okClient 42 5).sent.map Request.body = [some "\x7b\"config_id\":5\x7d"]
    ∧ (BootInstance okClient 42 0).sent.map Request.body = [some ""]
    ∧ (RebootInstance okClient 42 0).sent.map Request.body = [some "\x7b\x7d"] :=
  ⟨rfl, (boot_reboot_request_bodies okClient instancesURL rfl 42 5).1,
    (boot_reboot_request_bodies okClient instancesURL rfl 42 5).2.1,
    (boot_reboot_request_bodies okClient instancesURL rfl 42 0).1,
    (boot_reboot_request_bodies okClient instancesURL rfl 42 0).2.1⟩

/-! ### Request body of a rename -/

/-- C2: the body `RenameInstance` sends is not limited to the label: next to
`label` (left out when the label is empty) the encoding of
`InstanceUpdateOptions{Label: label}` always holds the members `backups` and
`alerts`, with their zero values; evaluated for instance 123 and the label
`web-1`. -/
theorem rename_body_members :
    (∀ label : String,
      (InstanceUpdateOptions.members ⟨label, "", InstanceBackup.zero, InstanceAlert.zero⟩).map
          Prod.fst
        = (if label = "" then [] else ["label"]) ++ ["backups", "alerts"])
    ∧ (RenameInstance demoParseDates okClient 123 "web-1").sent
        = [⟨.PUT, "https://api.linode.com/v4/linode/instances/123",
            some ("\x7b\"label\":\"web-1\","
              ++ "\"backups\":\x7b\"enabled\":false,\"Schedule\":\x7b\x7d\x7d,"
              ++ "\"alerts\":\x7b\"cpu\":0,\"io\":0,\"network_in\":0,\"network_out\":0,"
              ++ "\"transfer_queue\":0\x7d\x7d"), true⟩] := by
  refine ⟨fun label => ?_, by decide⟩
  by_cases h : label = "" <;> simp [InstanceUpdateOptions.members, fieldMembers, h]

/-! ### Target URL and verb of each operation -/

/-- C3: with the collection URL `E` resolved, every operation issues exactly
one request: Get, Update and Delete to `E/id` with GET, PUT and DELETE, Create
to `E` with POST, and Boot, Reboot, Shutdown, Resize, Clone, Rebuild and
Mutate with POST to `E/id/action`. -/
theorem operation_targets (parseDates : String → Option τ × Option ε) (c : Client τ ε)
    (E : String) (hE : c.endpoint = .ok E) (id configID : Int) (linodeType : String)
    (create : Option InstanceCreateOptions) (update : Option InstanceUpdateOptions)
    (clone : Option InstanceCloneOptions) (rebuild : Option RebuildInstanceOptions) :
    (GetInstance parseDates c id).sent.map (fun r => (r.method, r.url))
        = [(.GET, E ++ "/" ++ toString id)]
    ∧ (UpdateInstance parseDates c id update).sent.map (fun r => (r.method, r.url))
        = [(.PUT, E ++ "/" ++ toString id)]
    ∧ (DeleteInstance c id).sent.map (fun r => (r.method, r.url))
        = [(.DELETE, E ++ "/" ++ toString id)]
    ∧ (CreateInstance parseDates c create).sent.map (fun r => (r.method, r.url))
        = [(.POST, E)]
    ∧ (BootInstance c id configID).sent.map (fun r => (r.method, r.url))
        = [(.POST, E ++ "/" ++ toString id ++ "/boot")]
    ∧ (RebootInstance c id configID).sent.map (fun r => (r.method, r.url))
        = [(.POST, E ++ "/" ++ toString id ++ "/reboot")]
    ∧ (ShutdownInstance c id).sent.map (fun r => (r.method, r.url))
        = [(.POST, E ++ "/" ++ toString id ++ "/shutdown")]
    ∧ (ResizeInstance c id linodeType).sent.map (fun r => (r.method, r.url))
        = [(.POST, E ++ "/" ++ toString id ++ "/resize")]
    ∧ (CloneInstance parseDates c id clone).sent.map (fun r => (r.method, r.url))
        = [(.POST, E ++ "/" ++ toString id ++ "/clone")]
    ∧ (RebuildInstance parseDates c id rebuild).sent.map (fun r => (r.method, r.url))
        = [(.POST, E ++ "/" ++ toString id ++ "/rebuild")]
    ∧ (MutateInstance c id).sent.map (fun r => (r.method, r.url))
        = [(.POST, E ++ "/" ++ toString id ++ "/mutate")] := by
  rw [GetInstance_ok parseDates c E hE, UpdateInstance_ok parseDates c E hE,
    DeleteInstance_ok c E hE, CreateInstance_ok parseDates c E hE, BootInstance_ok c E hE,
    RebootInstance_ok c E hE, ShutdownInstance_ok c E hE, ResizeInstance_ok c E hE,
    CloneInstance_ok parseDates c E hE, RebuildInstance_ok parseDates c E hE,
    MutateInstance_ok c E hE]
  simp only [List.map_cons, List.map_nil, sprintfAction_eq]
  refine ⟨?_, ?_, ?_, ?_, ?_, ?_, ?_, ?_, ?_, ?_, ?_⟩ <;> trivial

/-- Witness of C3 on a client whose endpoint resolves, for instance 42. -/
theorem operation_targets_witness :
    okClient.endpoint = .ok instancesURL
    ∧ (GetInstance demoParseDates okClient 42).sent.map (fun r => (r.method, r.url))
        = [(.GET, "https://api.linode.com/v4/linode/instances/42")]
    ∧ (MutateInstance okClient 42).sent.map (fun r => (r.method, r.url))
        = [(.POST, "https://api.linode.com/v4/linode/instances/42/mutate")] :=
  ⟨rfl,
    (operation_targets demoParseDates okClient instancesURL rfl 42 0 "" none none none none).1,
    (operation_targets demoParseDates okClient instancesURL rfl 42 0 "" none none none
      none).2.2.2.2.2.2.2.2.2.2⟩

/-! ### Error propagation -/

/-- C4: when endpoint resolution fails with `e`, each of the eleven operations
returns `e` with an empty result and issues no request; when the endpoint
resolves, each issues one request and, if the coupled exchange of that request
fails with `e`, returns `e` with an empty result; in particular `GetInstance`
and `DeleteInstance` return the same error for the same failed exchange
outcome. -/
theorem errors_returned_unchanged (parseDates : String → Option τ × Option ε)
    (c : Client τ ε) (e : ε) (id configID : Int) (linodeType : String)
    (create : Option InstanceCreateOptions) (update : Option InstanceUpdateOptions)
    (clone : Option InstanceCloneOptions) (rebuild : Option RebuildInstanceOptions) :
    (c.endpoint = .error e →
      GetInstance parseDates c id = ⟨[], (none, some e)⟩
      ∧ CreateInstance parseDates c create = ⟨[], (none, some e)⟩
      ∧ UpdateInstance parseDates c id update = ⟨[], (none, some e)⟩
      ∧ DeleteInstance c id = ⟨[], some e⟩
      ∧ BootInstance c id configID = ⟨[], (false, some e)⟩
      ∧ RebootInstance c id configID = ⟨[], (false, some e)⟩
      ∧ ShutdownInstance c id = ⟨[], (false, some e)⟩
      ∧ ResizeInstance c id linodeType = ⟨[], (false, some e)⟩
      ∧ CloneInstance parseDates c id clone = ⟨[], (none, some e)⟩
      ∧ RebuildInstance parseDates c id rebuild = ⟨[], (none, some e)⟩
      ∧ MutateInstance c id = ⟨[], (false, some e)⟩)
    ∧ (∀ E, c.endpoint = .ok E →
      ReturnsOnExchangeError c e (GetInstance parseDates c id) (none, some e)
      ∧ ReturnsOnExchangeError c e (CreateInstance parseDates c create) (none, some e)
      ∧ ReturnsOnExchangeError c e (UpdateInstance parseDates c id update) (none, some e)
      ∧ ReturnsOnExchangeError c e (DeleteInstance c id) (some e)
      ∧ ReturnsOnExchangeError c e (BootInstance c id configID) (false, some e)
      ∧ ReturnsOnExchangeError c e (RebootInstance c id configID) (false, some e)
      ∧ ReturnsOnExchangeError c e (ShutdownInstance c id) (false, some e)
      ∧ ReturnsOnExchangeError c e (ResizeInstance c id linodeType) (false, some e)
      ∧ ReturnsOnExchangeError c e (CloneInstance parseDates c id clone) (none, some e)
      ∧ ReturnsOnExchangeError c e (RebuildInstance parseDates c id rebuild) (none, some e)
      ∧ ReturnsOnExchangeError c e (MutateInstance c id) (false, some e))
    ∧ (∀ r₁ ∈ (GetInstance parseDates c id).sent, ∀ r₂ ∈ (DeleteInstance c id).sent,
        c.exchange r₁ = .error e → c.exchange r₂ = .error e →
        (GetInstance parseDates c id).ret = (none, some e)
        ∧ (DeleteInstance c id).ret = some e) := by
  refine ⟨fun he => ?_, fun E hE => ?_, ?_⟩
  · simp only [GetInstance, CreateInstance, UpdateInstance, DeleteInstance, BootInstance,
      RebootInstance, ShutdownInstance, ResizeInstance, CloneInstance, RebuildInstance,
      MutateInstance, he, and_self]
  · rw [GetInstance_ok parseDates c E hE, UpdateInstance_ok parseDates c E hE,
      DeleteInstance_ok c E hE, CreateInstance_ok parseDates c E hE, BootInstance_ok c E hE,
      RebootInstance_ok c E hE, ShutdownInstance_ok c E hE, ResizeInstance_ok c E hE,
      CloneInstance_ok parseDates c E hE, RebuildInstance_ok parseDates c E hE,
      MutateInstance_ok c E hE]
    refine ⟨?_, ?_, ?_, ?_, ?_, ?_, ?_, ?_, ?_, ?_, ?_⟩ <;>
      exact ⟨_, rfl, fun hx => by
        first
          | exact settleInstance_error _ _ _ hx
          | exact settleBool_error _ _ hx
          | exact settleError_error _ _ hx⟩
  · cases hc : c.endpoint with
    | error e' => simp [GetInstance, hc]
    | ok E =>
      rw [GetInstance_ok parseDates c E hc, DeleteInstance_ok c E hc]
      intro r₁ h₁ r₂ h₂ hx₁ hx₂
      simp only [List.mem_singleton] at h₁ h₂
      subst h₁ h₂
      exact ⟨settleInstance_error _ _ _ hx₁, settleError_error _ _ hx₂⟩

/-- Witness of C4: a client without endpoint, and a client whose exchanges
all end in a 404. -/
theorem errors_returned_unchanged_witness :
    noEndpointClient.endpoint = .error "endpoint not set"
    ∧ GetInstance demoParseDates noEndpointClient 42 = ⟨[], (none, some "endpoint not set")⟩
    ∧ notFoundClient.endpoint = .ok instancesURL
    ∧ ReturnsOnExchangeError notFoundClient "[404] Not found"
        (DeleteInstance notFoundClient 42) (some "[404] Not found") :=
  ⟨rfl,
    ((errors_returned_unchanged demoParseDates noEndpointClient "endpoint not set" 42 0 ""
      none none none none).1 rfl).1,
    rfl,
    ((errors_returned_unchanged demoParseDates notFoundClient "[404] Not found" 42 0 ""
      none none none none).2.1 instancesURL rfl).2.2.2.1⟩

/-! ### Boolean results -/

theorem settleBool_cases (x : Except ε (Response τ)) :
    (settleBool x = (true, none) ∨ ∃ e, settleBool x = (false, some e))
    ∧ (settleBool x = (true, none) ↔ ∃ resp, x = .ok resp)
    ∧ ∀ e, x = .error e → settleBool x = (false, some e) := by
  cases x with
  | error e => simp [settleBool, goPair, settleBoolResponseOrError]
  | ok r => simp [settleBool, goPair, settleBoolResponseOrError]

theorem settlesBool_intro (c : Client τ ε) (call : Call (Bool × Option ε))
    (hfail : ∀ e, c.endpoint = .error e → call = ⟨[], (false, some e)⟩)
    (hok : ∀ E, c.endpoint = .ok E → ∃ r, call = ⟨[r], settleBool (c.exchange r)⟩) :
    SettlesBool c call := by
  cases hc : c.endpoint with
  | error e =>
    rw [hfail e hc]
    exact ⟨Or.inr ⟨e, rfl⟩, fun E hE => by rw [hc] at hE; cases hE⟩
  | ok E =>
    obtain ⟨r, hr⟩ := hok E hc
    rw [hr]
    exact ⟨(settleBool_cases _).1, fun _ _ => ⟨r, rfl, (settleBool_cases _).2⟩⟩

theorem settleBool_congr (x y : Except ε (Response τ))
    (h : x.map (fun _ => ()) = y.map (fun _ => ())) : settleBool x = settleBool y := by
  cases x <;> cases y <;> simp_all [Except.map, settleBool, goPair, settleBoolResponseOrError]

/-- C8: each of Boot, Reboot, Shutdown, Resize and Mutate returns either
`(true, nil)` or `(false, e)`, and once the endpoint is resolved it returns
`(true, nil)` exactly when the coupled exchange produced no error and
`(false, e)` when it produced the error `e`; the response plays no part:
`settleBoolResponseOrError` ignores it, and two clients with the same endpoint
whose exchanges fail or succeed alike, with whatever responses, yield the same
outcome. -/
theorem bool_operations_settle (c : Client τ ε) (id configID : Int) (linodeType : String) :
    (SettlesBool c (BootInstance c id configID)
      ∧ SettlesBool c (RebootInstance c id configID)
      ∧ SettlesBool c (ShutdownInstance c id)
      ∧ SettlesBool c (ResizeInstance c id linodeType)
      ∧ SettlesBool c (MutateInstance c id))
    ∧ (∀ (resp resp' : Option (Response τ)) (err : Option ε),
        settleBoolResponseOrError resp err = settleBoolResponseOrError resp' err)
    ∧ (∀ c' : Client τ ε, c'.endpoint = c.endpoint →
        (∀ req, (c'.exchange req).map (fun _ => ()) = (c.exchange req).map (fun _ => ())) →
        BootInstance c' id configID = BootInstance c id configID
        ∧ RebootInstance c' id configID = RebootInstance c id configID
        ∧ ShutdownInstance c' id = ShutdownInstance c id
        ∧ ResizeInstance c' id linodeType = ResizeInstance c id linodeType
        ∧ MutateInstance c' id = MutateInstance c id) := by
  refine ⟨⟨?_, ?_, ?_, ?_, ?_⟩, fun _ _ _ => rfl, fun c' hc' hx => ?_⟩
  · exact settlesBool_intro c _ (fun e he => by simp only [BootInstance, he])
      (fun E hE => ⟨_, BootInstance_ok c E hE id configID⟩)
  · exact settlesBool_intro c _ (fun e he => by simp only [RebootInstance, he])
      (fun E hE => ⟨_, RebootInstance_ok c E hE id configID⟩)
  · exact settlesBool_intro c _ (fun e he => by simp only [ShutdownInstance, he])
      (fun E hE => ⟨_, ShutdownInstance_ok c E hE id⟩)
  · exact settlesBool_intro c _ (fun e he => by simp only [ResizeInstance, he])
      (fun E hE => ⟨_, ResizeInstance_ok c E hE id linodeType⟩)
  · exact settlesBool_intro c _ (fun e he => by simp only [MutateInstance, he])
      (fun E hE => ⟨_, MutateInstance_ok c E hE id⟩)
  · cases hc : c.endpoint with
    | error e =>
      rw [hc] at hc'
      simp only [BootInstance, RebootInstance, ShutdownInstance, ResizeInstance,
        MutateInstance, hc, hc', and_self]
    | ok E =>
      rw [hc] at hc'
      rw [BootInstance_ok c E hc, RebootInstance_ok c E hc, ShutdownInstance_ok c E hc,
        ResizeInstance_ok c E hc, MutateInstance_ok c E hc, BootInstance_ok c' E hc',
        RebootInstance_ok c' E hc', ShutdownInstance_ok c' E hc', ResizeInstance_ok c' E hc',
        MutateInstance_ok c' E hc']
      simp only [settleBool_congr _ _ (hx _), and_self]

/-- Witness of C8: two clients with the same endpoint whose exchanges all
succeed, with different responses. -/
theorem bool_operations_settle_witness :
    verboseClient.endpoint = okClient.endpoint
    ∧ (∀ req, (verboseClient.exchange req).map (fun _ => ())
        = (okClient.exchange req).map (fun _ => ()))
    ∧ ShutdownInstance verboseClient 42 = ShutdownInstance okClient 42
    ∧ (ShutdownInstance okClient 42).ret = (true, none) :=
  ⟨rfl, fun _ => rfl,
    ((bool_operations_settle okClient 42 0 "").2.2 verboseClient rfl (fun _ => rfl)).2.2.1,
    by decide⟩

/-! ### Date normalization -/

/-- C9: `fixDates` sets `Created` to what `parseDates` yields for `CreatedStr`
and `Updated` to what it yields for `UpdatedStr`, each independently of the
other raw string, leaves the two raw strings and every other field as they
were, and applying it twice is the same as applying it once; being a total
function it always returns. -/
theorem fixDates_normalizes (parseDates : String → Option τ × Option ε) (r : Instance τ) :
    ((r.fixDates parseDates).Created = (parseDates r.CreatedStr).1
      ∧ (r.fixDates parseDates).Updated = (parseDates r.UpdatedStr).1)
    ∧ (∀ s : String,
        ({ r with CreatedStr := s }.fixDates parseDates).Updated
          = (r.fixDates parseDates).Updated)
    ∧ (∀ s : String,
        ({ r with UpdatedStr := s }.fixDates parseDates).Created
          = (r.fixDates parseDates).Created)
    ∧ ((r.fixDates parseDates).CreatedStr = r.CreatedStr
      ∧ (r.fixDates parseDates).UpdatedStr = r.UpdatedStr
      ∧ (r.fixDates parseDates).ID = r.ID
      ∧ (r.fixDates parseDates).Region = r.Region
      ∧ (r.fixDates parseDates).Alerts = r.Alerts
      ∧ (r.fixDates parseDates).Backups = r.Backups
      ∧ (r.fixDates parseDates).Image = r.Image
      ∧ (r.fixDates parseDates).Group = r.Group
      ∧ (r.fixDates parseDates).IPv4 = r.IPv4
      ∧ (r.fixDates parseDates).IPv6 = r.IPv6
      ∧ (r.fixDates parseDates).Label = r.Label
      ∧ (r.fixDates parseDates).Type_ = r.Type_
      ∧ (r.fixDates parseDates).Status = r.Status
      ∧ (r.fixDates parseDates).Hypervisor = r.Hypervisor
      ∧ (r.fixDates parseDates).Specs = r.Specs)
    ∧ (r.fixDates parseDates).fixDates parseDates = r.fixDates parseDates :=
  ⟨⟨rfl, rfl⟩, fun _ => rfl, fun _ => rfl,
    ⟨rfl, rfl, rfl, rfl, rfl, rfl, rfl, rfl, rfl, rfl, rfl, rfl, rfl, rfl, rfl⟩, rfl⟩

/-! ### Listing -/

theorem fixDates_idem (parseDates : String → Option τ × Option ε) (r : Instance τ) :
    (r.fixDates parseDates).fixDates parseDates = r.fixDates parseDates := rfl

theorem fixDatesAll_of_nonnil (parseDates : String → Option τ × Option ε) (l : List Ptr)
    (hl : ∀ p ∈ l, p ≠ none) (h : Heap τ) :
    ∃ h'' : Heap τ, fixDatesAll parseDates l h = .returned h''
      ∧ ∀ a, h'' a = if some a ∈ l then (h a).fixDates parseDates else h a := by
  induction l generalizing h with
  | nil => exact ⟨h, rfl, fun a => by simp⟩
  | cons p l ih =>
    have hl' : ∀ q ∈ l, q ≠ none := fun q hq => hl q (List.mem_cons_of_mem p hq)
    cases p with
    | none => exact absurd rfl (hl none (List.mem_cons_self _ _))
    | some b =>
      obtain ⟨h'', hret, hfix⟩ :=
        ih hl' (Function.update h b ((h b).fixDates parseDates))
      refine ⟨h'', by simpa only [fixDatesAll] using hret, fun a => ?_⟩
      rw [hfix a]
      by_cases hab : a = b
      · subst hab
        simp [fixDates_idem]
      · have hba : ¬ b = a := fun hh => hab hh.symm
        simp [Function.update_noteq hab, hab, hba]

theorem fixDatesAll_of_nil (parseDates : String → Option τ × Option ε) (l : List Ptr)
    (hl : none ∈ l) (h : Heap τ) :
    fixDatesAll parseDates l h = .panicked .nilDereference := by
  induction l generalizing h with
  | nil => simp at hl
  | cons p l ih =>
    cases p with
    | none => rfl
    | some b =>
      have hl' : none ∈ l := by simpa using hl
      simpa only [fixDatesAll] using ih hl' _

/-- Counterexample to C6: a helper that returns an error after accumulating an
item and a nil pointer; `ListInstances` runs `fixDates` on the accumulated
elements before it looks at the error, panics on the nil one and returns
nothing, so in particular not `(nil, e)`. -/
theorem ListInstances_panics_on_nil_item :
    nilItemHelper demoHeap ⟨none, []⟩
      = .returned (demoHeap, ⟨none, [some 7, none]⟩, some "[500] page 2 failed")
    ∧ ListInstances demoParseDates nilItemHelper demoHeap = .panicked .nilDereference
    ∧ ∀ (h'' : Heap Nat) (items : List Ptr) (err : Option String),
        ListInstances demoParseDates nilItemHelper demoHeap ≠ .returned (h'', items, err) := by
  have hp : ListInstances demoParseDates nilItemHelper demoHeap
      = .panicked .nilDereference := rfl
  refine ⟨rfl, hp, fun h'' items err hr => ?_⟩
  rw [hp] at hr
  cases hr

/-- C6, amended: when the paginating helper returns and none of the pointers
accumulated in the page response is nil, `ListInstances` returns `(nil, e)` if
the helper's error is `e`, whatever the page response had accumulated, and
returns exactly the accumulated pointers, in their order, with a nil error if
the helper reported none; in both cases the records the accumulated pointers
point to have had their dates normalized and no other record has changed. -/
theorem ListInstances_all_or_nothing (parseDates : String → Option τ × Option ε)
    (helper : Heap τ → InstancesPagedResponse →
      Outcome ε (Heap τ × InstancesPagedResponse × Option ε))
    (h h' : Heap τ) (resp' : InstancesPagedResponse) (err : Option ε)
    (hh : helper h ⟨none, []⟩ = .returned (h', resp', err))
    (hnil : ∀ p ∈ resp'.Data, p ≠ none) :
    ∃ h'' : Heap τ,
      (∀ a, h'' a = if some a ∈ resp'.Data then (h' a).fixDates parseDates else h' a)
      ∧ (∀ e, err = some e →
          ListInstances parseDates helper h = .returned (h'', [], some e))
      ∧ (err = none →
          ListInstances parseDates helper h = .returned (h'', resp'.Data, none)) := by
  obtain ⟨h'', hret, hfix⟩ := fixDatesAll_of_nonnil parseDates resp'.Data hnil h'
  refine ⟨h'', hfix, ?_, ?_⟩
  · intro e he
    subst he
    simp only [ListInstances, hh, hret]
  · intro he
    subst he
    simp only [ListInstances, hh, hret]

/-- Witness of C6, amended: a helper that fails after accumulating two non-nil
items, and one that succeeds with the same two items. -/
theorem ListInstances_all_or_nothing_witness :
    failingHelper demoHeap ⟨none, []⟩
      = .returned (demoHeap, ⟨none, [some 7, some 8]⟩, some "[500] page 2 failed")
    ∧ (∀ p ∈ [some 7, some 8], p ≠ (none : Ptr))
    ∧ (∃ h'' : Heap Nat, ListInstances demoParseDates failingHelper demoHeap
        = .returned (h'', [], some "[500] page 2 failed"))
    ∧ succeedingHelper demoHeap ⟨none, []⟩
      = .returned (demoHeap, ⟨none, [some 7, some 8]⟩, none)
    ∧ (∃ h'' : Heap Nat, ListInstances demoParseDates succeedingHelper demoHeap
        = .returned (h'', [some 7, some 8], none)) :=
  ⟨rfl, by decide,
    (ListInstances_all_or_nothing demoParseDates failingHelper demoHeap demoHeap
      ⟨none, [some 7, some 8]⟩ (some "[500] page 2 failed") rfl (by decide)).elim
      (fun h'' hp => ⟨h'', hp.2.1 _ rfl⟩),
    rfl,
    (ListInstances_all_or_nothing demoParseDates succeedingHelper demoHeap demoHeap
      ⟨none, [some 7, some 8]⟩ none rfl (by decide)).elim
      (fun h'' hp => ⟨h'', hp.2.2 rfl⟩)⟩

/-- Counterexample to C5: it is not the case that the endpoint lookup of the
page shape returns for every client whose endpoint resolution fails; on
`noEndpointClient` it panics. -/
theorem endpoint_lookup_aborts :
    ¬ ∀ c : Client Nat String, (∃ e, c.endpoint = .error e) →
        ∃ u, (InstancesPagedResponse.endpoint c : Outcome String String) = .returned u := by
  intro h
  obtain ⟨u, hu⟩ := h noEndpointClient ⟨_, rfl⟩
  simp [InstancesPagedResponse.endpoint, noEndpointClient] at hu

/-- C5, amended: for a client whose endpoint resolution fails with `e`, the
endpoint lookup of the page shape panics with `e`, and so does the list path:
`ListInstances`, run with the paginating helper that obtains its URL from that
lookup, panics with `e` whatever the page loop and the store are, and returns
no error value. When resolution succeeds the lookup returns the URL and
`ListInstances` is what it is with the page loop run against that URL. -/
theorem endpoint_lookup_panics (parseDates : String → Option τ × Option ε)
    (c : Client τ ε)
    (fetchPages : String → Heap τ → InstancesPagedResponse →
      Outcome ε (Heap τ × InstancesPagedResponse × Option ε))
    (h : Heap τ) :
    (∀ e, c.endpoint = .error e →
      InstancesPagedResponse.endpoint c = .panicked (.error e)
      ∧ ListInstances parseDates (listHelper c fetchPages) h = .panicked (.error e)
      ∧ ∀ (h'' : Heap τ) (items : List Ptr) (err : Option ε),
          ListInstances parseDates (listHelper c fetchPages) h
            ≠ .returned (h'', items, err))
    ∧ (∀ u, c.endpoint = .ok u →
      InstancesPagedResponse.endpoint c = .returned u
      ∧ ListInstances parseDates (listHelper c fetchPages) h
          = ListInstances parseDates (fetchPages u) h) := by
  refine ⟨fun e he => ?_, fun u hu => ?_⟩
  · have hp : ListInstances parseDates (listHelper c fetchPages) h
        = .panicked (.error e) := by
      simp only [ListInstances, listHelper, InstancesPagedResponse.endpoint, he]
    refine ⟨by simp only [InstancesPagedResponse.endpoint, he], hp, fun h'' items err hr => ?_⟩
    rw [hp] at hr
    cases hr
  · refine ⟨by simp only [InstancesPagedResponse.endpoint, hu], ?_⟩
    simp only [ListInstances, listHelper, InstancesPagedResponse.endpoint, hu]

/-- Witness of C5, amended: the client without endpoint, with a page loop that
would have fetched one page. -/
theorem endpoint_lookup_panics_witness :
    noEndpointClient.endpoint = .error "endpoint not set"
    ∧ (InstancesPagedResponse.endpoint noEndpointClient : Outcome String String)
        = .panicked (.error "endpoint not set")
    ∧ ListInstances demoParseDates (listHelper noEndpointClient onePage) demoHeap
        = .panicked (.error "endpoint not set") :=
  ⟨rfl,
    ((endpoint_lookup_panics demoParseDates noEndpointClient onePage demoHeap).1 _ rfl).1,
    ((endpoint_lookup_panics demoParseDates noEndpointClient onePage demoHeap).1 _ rfl).2.1⟩

/-! ### Creation -/

/-- Counterexample to C7: with the endpoint resolved and the exchange
succeeding, `CreateInstance` on options whose region and type are empty sends
its request and returns an instance and no error. -/
theorem create_with_empty_region_succeeds :
    emptyCreateOptions.Region = "" ∧ emptyCreateOptions.Type_ = ""
    ∧ (CreateInstance demoParseDates okClient (some emptyCreateOptions)).sent
        = [⟨.POST, instancesURL, some "\x7b\"region\":\"\",\"type\":\"\"\x7d", true⟩]
    ∧ (CreateInstance demoParseDates okClient (some emptyCreateOptions)).ret
        = (some (Instance.zero Nat), none) := by
  decide

/-- C7, amended: `CreateInstance` does not check region or type. For every
`InstanceCreateOptions`, once the endpoint resolves it sends one POST to the
collection URL whose body is the encoding of the options; the first two
members of that object are always `region` and `type`, present even when
empty; and it returns an error exactly when the coupled exchange of that
request fails, namely that error. -/
theorem create_sends_without_validation (parseDates : String → Option τ × Option ε)
    (c : Client τ ε) (E : String) (hE : c.endpoint = .ok E) (opts : InstanceCreateOptions) :
    (CreateInstance parseDates c (some opts)).sent
        = [⟨.POST, E, some (encodeObject opts.members), true⟩]
    ∧ opts.members.take 2
        = [("region", encodeString opts.Region), ("type", encodeString opts.Type_)]
    ∧ (∀ e, (CreateInstance parseDates c (some opts)).ret.2 = some e
        ↔ c.exchange ⟨.POST, E, some (encodeObject opts.members), true⟩ = .error e)
    ∧ ((CreateInstance parseDates c (some opts)).ret.2 = none
        ↔ ∃ r, c.exchange ⟨.POST, E, some (encodeObject opts.members), true⟩ = .ok r) := by
  rw [CreateInstance_ok parseDates c E hE]
  refine ⟨rfl, ?_, ?_, ?_⟩
  · simp [InstanceCreateOptions.members, fieldMembers]
  · intro e
    simp only [marshalPtr]
    cases c.exchange ⟨.POST, E, some (encodeObject opts.members), true⟩ <;>
      simp [settleInstance]
  · simp only [marshalPtr]
    cases c.exchange ⟨.POST, E, some (encodeObject opts.members), true⟩ <;>
      simp [settleInstance]

/-- Witness of C7, amended: the options with empty region and type on a client
whose exchanges succeed. -/
theorem create_sends_without_validation_witness :
    okClient.endpoint = .ok instancesURL
    ∧ (CreateInstance demoParseDates okClient (some emptyCreateOptions)).sent
        = [⟨.POST, instancesURL, some (encodeObject emptyCreateOptions.members), true⟩] :=
  ⟨rfl, (create_sends_without_validation demoParseDates okClient instancesURL rfl
    emptyCreateOptions).1⟩

/-! ### Request body of a resize -/

/-- C10: for the type made of `a`, a double quote and `b`, the body
`ResizeInstance` sends carries the quote unescaped and is not a JSON object
with the single member `type`, whereas the JSON encoding of that one-member
object reads back as the type; for a type holding a backslash followed by `n`
the body reads back as a different string, and for a type holding a raw line
feed it does not read back at all. -/
theorem resize_body_not_escaped :
    (ResizeInstance okClient 42 "a\"b").sent.map Request.body
        = [some "\x7b\"type\":\"a\"b\"\x7d"]
    ∧ decodeTypeObject (resizeBody "a\"b") = none
    ∧ encodeObject [("type", encodeString "a\"b")] = "\x7b\"type\":\"a\\\"b\"\x7d"
    ∧ decodeTypeObject (encodeObject [("type", encodeString "a\"b")]) = some "a\"b"
    ∧ decodeTypeObject (resizeBody "a\\nb") = some "a\nb"
    ∧ decodeTypeObject (resizeBody "a\nb") = none
    ∧ decodeTypeObject (resizeBody "g6-standard-2") = some "g6-standard-2" := by
  decide

theorem dropPrefix_append (p s : List Char) : dropPrefix p (p ++ s) = some s := by
  induction p with
  | nil => cases s <;> rfl
  | cons a p ih => simp [dropPrefix, ih]

theorem unescape_plain (l rest : List Char) (hl : ∀ c ∈ l, plainChar c = true) :
    unescape (l ++ '"' :: rest) = some (l.map Char.toNat, rest) := by
  induction l with
  | nil =>
    rw [List.nil_append, unescape.eq_def]
    simp
  | cons a l ih =>
    have ha := hl a (List.mem_cons_self a l)
    have hl' : ∀ c ∈ l, plainChar c = true := fun c hc => hl c (List.mem_cons_of_mem a hc)
    simp only [plainChar, Bool.and_eq_true, decide_eq_true_eq] at ha
    obtain ⟨⟨h1, h2⟩, h3⟩ := ha
    have h3' : ¬ a.toNat < 32 := by omega
    rw [List.cons_append, unescape.eq_def]
    simp [h1, h2, h3', ih hl']

theorem unit_toNat (c : Char) :
    (if isSurrogate c.toNat = true then Char.ofNat 65533 else Char.ofNat c.toNat) = c := by
  have hv : ¬ (55296 ≤ c.toNat ∧ c.toNat < 57344) := by
    have := c.valid
    simp only [Char.toNat, UInt32.isValidChar, Nat.isValidChar] at *
    omega
  have hs : isSurrogate c.toNat = false := by
    simp only [isSurrogate, Bool.and_eq_false_imp, decide_eq_true_eq, decide_eq_false_iff_not]
    omega
  simp [hs, Char.ofNat_toNat]

theorem combineUnits_map_toNat (l : List Char) : combineUnits (l.map Char.toNat) = l := by
  induction l with
  | nil => rfl
  | cons a l ih =>
    cases l with
    | nil => simpa [combineUnits] using unit_toNat a
    | cons b l =>
      have hv : ¬ (55296 ≤ a.toNat ∧ a.toNat < 56320 ∧ 56320 ≤ b.toNat ∧ b.toNat < 57344) := by
        have := a.valid
        simp only [Char.toNat, UInt32.isValidChar, Nat.isValidChar] at *
        omega
      simp only [List.map_cons] at ih ⊢
      simp only [combineUnits, hv, if_false, ih, unit_toNat]

/-- For a type made of plain characters only (no quote, no backslash, no
control character) the body built by `resizeBody` reads back as the one-member
object with that type. -/
theorem resize_body_plain_roundtrip (linodeType : String)
    (h : ∀ c ∈ linodeType.data, plainChar c = true) :
    decodeTypeObject (resizeBody linodeType) = some linodeType := by
  have hd : (resizeBody linodeType).data
      = "\x7b\"type\":\"".data ++ (linodeType.data ++ '"' :: ['}']) := by
    simp [resizeBody, String.data_append]
  simp only [decodeTypeObject, hd, dropPrefix_append, unescape_plain _ _ h,
    combineUnits_map_toNat]

end Properties

end Linodego
